import Mathlib

/-!
Verification of the MCP routing gateway (crates/router) against its
natural-language specification.  The Rust sources are shallowly embedded:
`serde_json::Value` becomes the inductive `J`, the JSON-RPC envelope of
`jsonrpc.rs` becomes `RpcId`/`Request`/`Response`, the subscription store of
`subs.rs` becomes a pure state machine over `StoreState`, the resource-URI
codec of `util.rs` is modelled at the byte level (a Rust `String` is its
list of UTF-8 bytes), and the dispatcher of `router.rs` becomes the pure
functions `handleToolCall` / `handleJsonrpc`, with the upstream registry
(`registry.call` / `registry.broadcast`) supplied as an explicit environment.
-/

namespace McpRouter

/-! ## JSON values (model of `serde_json::Value`)

`serde_json` numbers can be integers or floats; `Value::as_i64` yields a
value only for (in-range) integers.  We keep integers exactly and collapse
every non-integer number into the marker `J.float`, whose `asI64` is `none` -
exactly the information `router.rs` ever extracts from a number. -/

inductive J where
  | null : J
  | bool (b : Bool) : J
  | int (n : Int) : J
  | float : J
  | str (s : String) : J
  | arr (items : List J) : J
  | obj (fields : List (String × J)) : J

/-- First-match field lookup on a JSON object's field list. -/
def lookupField : List (String × J) → String → Option J
  | [], _ => none
  | (k, v) :: rest, key => if k = key then some v else lookupField rest key

/-- `Value::get(key)`: field lookup on objects, `None` on anything else. -/
def J.get : J → String → Option J
  | .obj fields, key => lookupField fields key
  | _, _ => none

/-- `Value::as_i64`. -/
def J.asI64 : J → Option Int
  | .int n => some n
  | _ => none

/-- `Value::as_str`. -/
def J.asStr : J → Option String
  | .str s => some s
  | _ => none

/-- `Map::insert` on a JSON object's fields: replace the value at an existing
key, otherwise append the pair. -/
def setField : List (String × J) → String → J → List (String × J)
  | [], key, v => [(key, v)]
  | (k, w) :: rest, key, v =>
      if k = key then (k, v) :: rest else (k, w) :: setField rest key v

/-- `params[key] = v` (serde_json `IndexMut`): inserts into an object,
turns `Null` into a fresh object; other cases panic in Rust and are
unreachable on the paths `router.rs` takes (modelled as the identity). -/
def J.setKey : J → String → J → J
  | .obj fields, key, v => .obj (setField fields key v)
  | .null, key, v => .obj [(key, v)]
  | other, _, _ => other

/-! ## JSON-RPC envelope (`jsonrpc.rs`) -/

/-- `Id`: string, integer, or absent (`Id::None`). -/
inductive RpcId where
  | str (s : String) : RpcId
  | int (n : Int) : RpcId
  | none : RpcId
  deriving DecidableEq

structure Request where
  jsonrpc : String
  id : RpcId
  method : String
  params : J

structure ErrorObject where
  code : Int
  message : String
  data : Option J

structure Response where
  jsonrpc : String
  id : RpcId
  result : Option J
  error : Option ErrorObject

def defaultJsonrpc : String := "2.0"

def Response.result' (id : RpcId) (value : J) : Response :=
  { jsonrpc := defaultJsonrpc, id := id, result := some value, error := Option.none }

def Response.error' (id : RpcId) (error : ErrorObject) : Response :=
  { jsonrpc := defaultJsonrpc, id := id, result := Option.none, error := some error }

def ErrorObject.invalidParams (message : String) : ErrorObject :=
  { code := -32602, message := message, data := Option.none }

def ErrorObject.custom (code : Int) (message : String) (data : Option J) : ErrorObject :=
  { code := code, message := message, data := data }

/-- `Request::new`: fresh requests are sent upstream with `id: Int(0)`. -/
def Request.new (method : String) (params : J) : Request :=
  { jsonrpc := defaultJsonrpc, id := RpcId.int 0, method := method, params := params }

/-! ## Base64, standard alphabet with padding (model of the `base64` crate's
`general_purpose::STANDARD` engine as used by `util.rs` / `router.rs`).
Bytes are `Nat`s below 256; encoded text is its list of ASCII codes. -/

/-- The standard alphabet: sextet -> ASCII code. -/
def b64Char (s : Nat) : Nat :=
  if s < 26 then 65 + s
  else if s < 52 then 97 + (s - 26)
  else if s < 62 then 48 + (s - 52)
  else if s = 62 then 43
  else 47

/-- ASCII code -> sextet; `none` for anything outside the alphabet
(including the pad character `'='`). -/
def b64Sextet (c : Nat) : Option Nat :=
  if 65 ≤ c ∧ c ≤ 90 then some (c - 65)
  else if 97 ≤ c ∧ c ≤ 122 then some (26 + (c - 97))
  else if 48 ≤ c ∧ c ≤ 57 then some (52 + (c - 48))
  else if c = 43 then some 62
  else if c = 47 then some 63
  else Option.none

/-- ASCII `'='`. -/
def padByte : Nat := 61

def b64Encode : List Nat → List Nat
  | b1 :: b2 :: b3 :: rest =>
      b64Char (b1 / 4) :: b64Char (b1 % 4 * 16 + b2 / 16) ::
      b64Char (b2 % 16 * 4 + b3 / 64) :: b64Char (b3 % 64) :: b64Encode rest
  | [b1, b2] =>
      [b64Char (b1 / 4), b64Char (b1 % 4 * 16 + b2 / 16), b64Char (b2 % 16 * 4), padByte]
  | [b1] => [b64Char (b1 / 4), b64Char (b1 % 4 * 16), padByte, padByte]
  | [] => []

/-- Decode one final quantum of four characters, honouring canonical padding
(trailing bits must be zero, as the STANDARD engine requires). -/
def b64DecodeLast (c1 c2 c3 c4 : Nat) : Option (List Nat) :=
  if c4 = padByte then
    if c3 = padByte then
      match b64Sextet c1, b64Sextet c2 with
      | some s1, some s2 => if s2 % 16 = 0 then some [s1 * 4 + s2 / 16] else Option.none
      | _, _ => Option.none
    else
      match b64Sextet c1, b64Sextet c2, b64Sextet c3 with
      | some s1, some s2, some s3 =>
          if s3 % 4 = 0 then some [s1 * 4 + s2 / 16, s2 % 16 * 16 + s3 / 4] else Option.none
      | _, _, _ => Option.none
  else
    match b64Sextet c1, b64Sextet c2, b64Sextet c3, b64Sextet c4 with
    | some s1, some s2, some s3, some s4 =>
        some [s1 * 4 + s2 / 16, s2 % 16 * 16 + s3 / 4, s3 % 4 * 64 + s4]
    | _, _, _, _ => Option.none

def b64Decode : List Nat → Option (List Nat)
  | [] => some []
  | c1 :: c2 :: c3 :: c4 :: rest =>
      if rest.isEmpty then b64DecodeLast c1 c2 c3 c4
      else
        match b64Sextet c1, b64Sextet c2, b64Sextet c3, b64Sextet c4 with
        | some s1, some s2, some s3, some s4 =>
            match b64Decode rest with
            | some tail => some ((s1 * 4 + s2 / 16) :: (s2 % 16 * 16 + s3 / 4) :: (s3 % 4 * 64 + s4) :: tail)
            | Option.none => Option.none
        | _, _, _, _ => Option.none
  | _ => none

theorem b64Sextet_b64Char : ∀ s < 64, b64Sextet (b64Char s) = some s := by
  decide

theorem b64Char_ne_pad : ∀ s < 64, b64Char s ≠ padByte := by
  decide

theorem b64_roundtrip (bs : List Nat) (h : ∀ b ∈ bs, b < 256) :
    b64Decode (b64Encode bs) = some bs := by
  induction bs using b64Encode.induct with
  | case1 b1 b2 b3 rest ih =>
      have h1 : b1 < 256 := h b1 (by simp)
      have h2 : b2 < 256 := h b2 (by simp)
      have h3 : b3 < 256 := h b3 (by simp)
      have ih' := ih (fun b hb => h b (by simp [hb]))
      have s1 : b1 / 4 < 64 := by omega
      have s2 : b1 % 4 * 16 + b2 / 16 < 64 := by omega
      have s3 : b2 % 16 * 4 + b3 / 64 < 64 := by omega
      have s4 : b3 % 64 < 64 := by omega
      cases hrest : b64Encode rest with
      | nil =>
          have hre : rest = [] := by
            cases rest with
            | nil => rfl
            | cons x xs =>
                exfalso
                cases xs with
                | nil => simp [b64Encode] at hrest
                | cons y ys =>
                    cases ys with
                    | nil => simp [b64Encode] at hrest
                    | cons z zs => simp [b64Encode] at hrest
          subst hre
          simp only [b64Encode, b64Decode, List.isEmpty_nil, if_true, b64DecodeLast]
          rw [if_neg (b64Char_ne_pad _ s4)]
          rw [b64Sextet_b64Char _ s1, b64Sextet_b64Char _ s2,
              b64Sextet_b64Char _ s3, b64Sextet_b64Char _ s4]
          simp only [Option.some.injEq, List.cons.injEq, and_true]
          omega
      | cons c cs =>
          have hne : (b64Encode rest).isEmpty = false := by rw [hrest]; rfl
          simp only [b64Encode, b64Decode, hne, Bool.false_eq_true, if_false]
          rw [b64Sextet_b64Char _ s1, b64Sextet_b64Char _ s2,
              b64Sextet_b64Char _ s3, b64Sextet_b64Char _ s4]
          rw [ih']
          simp only [Option.some.injEq, List.cons.injEq, and_true]
          omega
  | case2 b1 b2 =>
      have h1 : b1 < 256 := h b1 (by simp)
      have h2 : b2 < 256 := h b2 (by simp)
      have s1 : b1 / 4 < 64 := by omega
      have s2 : b1 % 4 * 16 + b2 / 16 < 64 := by omega
      have s3 : b2 % 16 * 4 < 64 := by omega
      simp only [b64Encode, b64Decode, List.isEmpty_nil, if_true, b64DecodeLast]
      rw [if_neg (b64Char_ne_pad _ s3)]
      rw [b64Sextet_b64Char _ s1, b64Sextet_b64Char _ s2, b64Sextet_b64Char _ s3]
      have hz : b2 % 16 * 4 % 4 = 0 := by omega
      simp only [hz, if_true, Option.some.injEq, List.cons.injEq, and_true]
      omega
  | case3 b1 =>
      have h1 : b1 < 256 := h b1 (by simp)
      have s1 : b1 / 4 < 64 := by omega
      have s2 : b1 % 4 * 16 < 64 := by omega
      simp only [b64Encode, b64Decode, List.isEmpty_nil, if_true, b64DecodeLast]
      rw [b64Sextet_b64Char _ s1, b64Sextet_b64Char _ s2]
      have hz : b1 % 4 * 16 % 16 = 0 := by omega
      simp only [hz, if_true, Option.some.injEq, List.cons.injEq, and_true]
      omega
  | case4 => rfl


/-! ## UTF-8 (model of Rust `String` <-> `Vec<u8>` boundaries)

A Rust `String` is a UTF-8-valid byte sequence.  `utf8Chars` is the strict
UTF-8 decoder (rejecting overlong forms, surrogates and out-of-range leads,
as `String::from_utf8` does); validity is its success. -/

/-- A UTF-8 continuation byte: `0x80..=0xBF`. -/
def contByte (c : Nat) : Bool := decide (128 ≤ c ∧ c ≤ 191)

/-- Allowed first continuation byte of a three-byte sequence led by `b`
(tightened for `0xE0` / `0xED` to exclude overlong forms and surrogates). -/
def cont3First (b c : Nat) : Bool :=
  decide ((if b = 224 then 160 else 128) ≤ c ∧ c ≤ (if b = 237 then 159 else 191))

/-- Allowed first continuation byte of a four-byte sequence led by `b`
(tightened for `0xF0` / `0xF4` to stay inside Unicode). -/
def cont4First (b c : Nat) : Bool :=
  decide ((if b = 240 then 144 else 128) ≤ c ∧ c ≤ (if b = 244 then 143 else 191))

def utf8Chars : List Nat → Option (List Char)
  | [] => some []
  | b :: rest =>
    if b < 128 then (utf8Chars rest).map (fun cs => Char.ofNat b :: cs)
    else if b < 194 then none
    else if b ≤ 223 then
      match rest with
      | c1 :: r =>
          if contByte c1 then
            (utf8Chars r).map (fun cs => Char.ofNat ((b - 192) * 64 + (c1 - 128)) :: cs)
          else none
      | [] => none
    else if b ≤ 239 then
      match rest with
      | c1 :: c2 :: r =>
          if cont3First b c1 && contByte c2 then
            (utf8Chars r).map
              (fun cs => Char.ofNat ((b - 224) * 4096 + (c1 - 128) * 64 + (c2 - 128)) :: cs)
          else none
      | _ => none
    else if b ≤ 244 then
      match rest with
      | c1 :: c2 :: c3 :: r =>
          if cont4First b c1 && contByte c2 && contByte c3 then
            (utf8Chars r).map
              (fun cs =>
                Char.ofNat ((b - 240) * 262144 + (c1 - 128) * 4096 + (c2 - 128) * 64 + (c3 - 128)) :: cs)
          else none
      | _ => none
    else none

/-- `String::from_utf8` succeeds exactly on valid UTF-8. -/
def isUtf8 (bs : List Nat) : Bool := (utf8Chars bs).isSome

/-- The UTF-8 bytes of one scalar value (model of Rust's char encoding). -/
def utf8CharBytes (c : Char) : List Nat :=
  let n := c.toNat
  if n < 128 then [n]
  else if n < 2048 then [192 + n / 64, 128 + n % 64]
  else if n < 65536 then [224 + n / 4096, 128 + n / 64 % 64, 128 + n % 64]
  else [240 + n / 262144, 128 + n / 4096 % 64, 128 + n / 64 % 64, 128 + n % 64]

/-- `str::as_bytes`. -/
def strBytes (s : String) : List Nat := s.data.flatMap utf8CharBytes

/-! ## Resource-URI codec (`util.rs`)

`encode_resource_uri` / `decode_resource_uri` are modelled at the byte level:
a Rust `&str` argument or result is its list of UTF-8 bytes.  The
`String::from_utf8` step of the decoder becomes the `isUtf8` gate on the
Base64-decoded payload. -/

/-- The bytes of `"mcp+router://"`. -/
def schemeBytes : List Nat := [109, 99, 112, 43, 114, 111, 117, 116, 101, 114, 58, 47, 47]

/-- `str::strip_prefix` on byte lists. -/
def dropScheme : List Nat → List Nat → Option (List Nat)
  | [], l => some l
  | _ :: _, [] => none
  | p :: ps, x :: xs => if x = p then dropScheme ps xs else none

/-- `str::split_once('/')` on byte lists (47 is ASCII `'/'`). -/
def splitOnceByte : List Nat → Option (List Nat × List Nat)
  | [] => none
  | b :: rest =>
      if b = 47 then some ([], rest)
      else
        match splitOnceByte rest with
        | some (pre, post) => some (b :: pre, post)
        | none => none

/-- `encode_resource_uri(server, upstream_uri)`:
`format!("mcp+router://{}/{}", server, BASE64.encode(upstream_uri.as_bytes()))`. -/
def encode_resource_uri (server upstreamUri : List Nat) : List Nat :=
  schemeBytes ++ server ++ 47 :: b64Encode upstreamUri

/-- `decode_resource_uri(uri)`: strip the scheme, split at the first `'/'`,
Base64-decode the payload, and require the result to be valid UTF-8. -/
def decode_resource_uri (uri : List Nat) : Option (List Nat × List Nat) :=
  match dropScheme schemeBytes uri with
  | none => none
  | some rest =>
    match splitOnceByte rest with
    | none => none
    | some (server, encoded) =>
      match b64Decode encoded with
      | none => none
      | some decoded => if isUtf8 decoded then some (server, decoded) else none

/-- One byte of an upstream name matching `[A-Za-z0-9_-]`. -/
def serverNameByte (c : Nat) : Bool :=
  decide ((65 ≤ c ∧ c ≤ 90) ∨ (97 ≤ c ∧ c ≤ 122) ∨ (48 ≤ c ∧ c ≤ 57) ∨ c = 95 ∨ c = 45)

/-- An upstream name matching `[A-Za-z0-9_-]+`. -/
def serverNameOk (server : List Nat) : Bool :=
  !server.isEmpty && server.all serverNameByte

theorem dropScheme_append (p l : List Nat) : dropScheme p (p ++ l) = some l := by
  induction p with
  | nil => rfl
  | cons x xs ih => simp [dropScheme, ih]

theorem splitOnceByte_sep (s t : List Nat) (h : 47 ∉ s) :
    splitOnceByte (s ++ 47 :: t) = some (s, t) := by
  induction s with
  | nil => simp [splitOnceByte]
  | cons x xs ih =>
      have hx : x ≠ 47 := fun hc => h (hc ▸ List.mem_cons_self x xs)
      have ih' := ih (fun hm => h (List.mem_cons_of_mem x hm))
      simp [splitOnceByte, hx, ih']

theorem serverNameOk_no_slash (server : List Nat) (h : serverNameOk server = true) :
    47 ∉ server := by
  intro hm
  have hall := (Bool.and_eq_true _ _ |>.mp h).2
  have := List.all_eq_true.mp hall 47 hm
  simp [serverNameByte] at this


/-- C7: for every upstream name matching `[A-Za-z0-9_-]+` and every UTF-8
original URI, decoding the encoded router resource URI returns exactly the
original pair; a string lacking the scheme, lacking a `'/'` after it, or
whose payload fails Base64 decoding, fails to decode. -/
theorem resource_uri_codec_roundtrip (server uri : List Nat)
    (hs : serverNameOk server = true) (hu : isUtf8 uri = true)
    (hb : ∀ b ∈ uri, b < 256) :
    decode_resource_uri (encode_resource_uri server uri) = some (server, uri)
  ∧ (∀ s, dropScheme schemeBytes s = none → decode_resource_uri s = none)
  ∧ (∀ s rest, dropScheme schemeBytes s = some rest → splitOnceByte rest = none →
       decode_resource_uri s = none)
  ∧ (∀ s rest srv payload, dropScheme schemeBytes s = some rest →
       splitOnceByte rest = some (srv, payload) → b64Decode payload = none →
       decode_resource_uri s = none) := by
  refine ⟨?_, ?_, ?_, ?_⟩
  · unfold encode_resource_uri decode_resource_uri
    have e1 : dropScheme schemeBytes (schemeBytes ++ (server ++ 47 :: b64Encode uri)) =
        some (server ++ 47 :: b64Encode uri) := dropScheme_append _ _
    have e2 : splitOnceByte (server ++ 47 :: b64Encode uri) =
        some (server, b64Encode uri) :=
      splitOnceByte_sep _ _ (serverNameOk_no_slash _ hs)
    have e3 : b64Decode (b64Encode uri) = some uri := b64_roundtrip _ hb
    simp only [List.append_assoc] at e1 ⊢
    simp only [e1, e2, e3, hu, if_true]
  · intro s h
    unfold decode_resource_uri
    simp only [h]
  · intro s rest h1 h2
    unfold decode_resource_uri
    simp only [h1, h2]
  · intro s rest srv payload h1 h2 h3
    unfold decode_resource_uri
    simp only [h1, h2, h3]

/-- C7 witness: the codec round-trips on server `"s"` and URI `"a"`. -/
theorem resource_uri_codec_roundtrip_witness :
    decode_resource_uri (encode_resource_uri [115] [97]) = some ([115], [97]) :=
  (resource_uri_codec_roundtrip [115] [97] (by decide) (by decide) (by decide)).1


/-! ## Subscription store (`subs.rs`)

The SQLite-backed `SubscriptionStore` becomes a pure state machine:
`db` models the `subscriptions` table (one optional row per user id),
`usage` the append-only `usage_counters` table, and `cache` the in-memory
`HashMap` guarded by the store's lock.  RFC-3339 timestamps are modelled as
abstract instants (`Int`), serialization being injective and irrelevant to
the claims. -/

/-- `Tier` (`serde` lowercase names `basic` / `pro` / `enterprise`). -/
inductive Tier where
  | basic : Tier
  | pro : Tier
  | enterprise : Tier
  deriving DecidableEq

/-- `Tier::as_str`. -/
def Tier.asStr : Tier → String
  | .basic => "basic"
  | .pro => "pro"
  | .enterprise => "enterprise"

/-- `Tier::from_str`: total, any unrecognized value becomes `Basic`. -/
def Tier.fromStr (value : String) : Tier :=
  match value with
  | "pro" => Tier.pro
  | "enterprise" => Tier.enterprise
  | _ => Tier.basic

structure SubscriptionRecord where
  user_id : String
  tier : Tier
  expires_at : Option Int
  max_tokens : Int
  max_requests : Int
  max_concurrent : Int
  tokens_used : Int
  requests_used : Int
  deriving DecidableEq

/-- `EnforcementError` (`subs.rs`). -/
inductive EnforcementError where
  | noSubscription : EnforcementError
  | expired : EnforcementError
  | requestsExceeded : EnforcementError
  | tokensExceeded : EnforcementError
  deriving DecidableEq

/-- The `thiserror` display strings of `EnforcementError`. -/
def EnforcementError.message : EnforcementError → String
  | .noSubscription => "no active subscription"
  | .expired => "subscription expired"
  | .requestsExceeded => "request quota exceeded"
  | .tokensExceeded => "token quota exceeded"

/-- `SubscriptionRecord::check_quota(tokens)`; `Utc::now()` is passed in as
the explicit instant `now`. -/
def SubscriptionRecord.check_quota (record : SubscriptionRecord) (now : Int)
    (tokens : Int) : Except EnforcementError Unit :=
  match record.expires_at with
  | some expiry =>
      if expiry < now then Except.error EnforcementError.expired
      else if record.requests_used ≥ record.max_requests then
        Except.error EnforcementError.requestsExceeded
      else if record.tokens_used + tokens > record.max_tokens then
        Except.error EnforcementError.tokensExceeded
      else Except.ok ()
  | none =>
      if record.requests_used ≥ record.max_requests then
        Except.error EnforcementError.requestsExceeded
      else if record.tokens_used + tokens > record.max_tokens then
        Except.error EnforcementError.tokensExceeded
      else Except.ok ()

/-- A row of the `subscriptions` table: `tier` is stored as text, parsed on
read with `Tier::from_str`. -/
structure DbRow where
  user_id : String
  tier : String
  expires_at : Option Int
  max_tokens : Int
  max_requests : Int
  max_concurrent : Int
  tokens_used : Int
  requests_used : Int
  deriving DecidableEq

/-- Building a `SubscriptionRecord` from a fetched row
(`get_subscription`'s row conversion). -/
def rowToRecord (row : DbRow) : SubscriptionRecord :=
  { user_id := row.user_id
    tier := Tier.fromStr row.tier
    expires_at := row.expires_at
    max_tokens := row.max_tokens
    max_requests := row.max_requests
    max_concurrent := row.max_concurrent
    tokens_used := row.tokens_used
    requests_used := row.requests_used }

structure StoreState where
  db : String → Option DbRow
  cache : String → Option SubscriptionRecord
  usage : List (String × String × Int)

/-- Pointwise map update (the `HashMap` insert / remove and the SQL row
write all specialise this). -/
def updAt {α : Type} (f : String → Option α) (key : String) (v : Option α) :
    String → Option α :=
  fun x => if x = key then v else f x

/-- `SubscriptionStore::get_subscription`: cache-read first; on miss, load
the row, convert, populate the cache. -/
def get_subscription (s : StoreState) (userId : String) :
    Option SubscriptionRecord × StoreState :=
  match s.cache userId with
  | some record => (some record, s)
  | none =>
    match s.db userId with
    | none => (none, s)
    | some row =>
        let record := rowToRecord row
        (some record, { s with cache := updAt s.cache userId (some record) })

/-- The tier presets used when `upsert_subscription` gets no quotas. -/
def tierPreset : Tier → Int × Int × Int
  | .basic => (100000, 1000, 1)
  | .pro => (1000000, 10000, 3)
  | .enterprise => (10000000, 100000, 10)

/-- The row `upsert_subscription`'s SQL leaves in the table: tier, expiry
and quota bounds are replaced, the counters are `COALESCE`d from the
existing row (0 when absent). -/
def upsertRow (s : StoreState) (userId : String) (tier : Tier)
    (expiresAt : Option Int) (quotas : Option (Int × Int × Int)) : DbRow :=
  let preset := quotas.getD (tierPreset tier)
  let counters :=
    match s.db userId with
    | some row => (row.tokens_used, row.requests_used)
    | none => ((0 : Int), (0 : Int))
  { user_id := userId
    tier := tier.asStr
    expires_at := expiresAt
    max_tokens := preset.1
    max_requests := preset.2.1
    max_concurrent := preset.2.2
    tokens_used := counters.1
    requests_used := counters.2 }

/-- The write half of `upsert_subscription`: the SQL upsert followed by
`self.cache.write().await.remove(user_id)`. -/
def upsertWrite (s : StoreState) (userId : String) (tier : Tier)
    (expiresAt : Option Int) (quotas : Option (Int × Int × Int)) : StoreState :=
  { s with
    db := updAt s.db userId (some (upsertRow s userId tier expiresAt quotas))
    cache := updAt s.cache userId none }

/-- `SubscriptionStore::upsert_subscription`: write, invalidate the cache
entry, then re-read through `get_subscription` (which re-populates it). -/
def upsert_subscription (s : StoreState) (userId : String) (tier : Tier)
    (expiresAt : Option Int) (quotas : Option (Int × Int × Int)) :
    Option SubscriptionRecord × StoreState :=
  get_subscription (upsertWrite s userId tier expiresAt quotas) userId

/-- The effect of `SubscriptionStore::record_usage(user_id, tokens,
provider)` when both of its SQL statements succeed: SQL `UPDATE` of the
counters (a no-op when the row is absent), append a `usage_counters` row,
remove the cache entry.  This is the success branch of
`record_usage_attempt`, which is the full model of the function. -/
def record_usage (s : StoreState) (userId : String) (tokens : Int)
    (provider : String) : StoreState :=
  { db := updAt s.db userId
      ((s.db userId).map fun row =>
        { row with
          tokens_used := row.tokens_used + tokens
          requests_used := row.requests_used + 1 })
    cache := updAt s.cache userId none
    usage := s.usage ++ [(provider, userId, tokens)] }

/-- The outcome of `record_usage`'s two fallible SQL statements (each runs
behind `?` against the pool, and they are not wrapped in a transaction). -/
inductive SqlOutcome where
  | updateFails : SqlOutcome
  | insertFails : SqlOutcome
  | ok : SqlOutcome
  deriving DecidableEq

/-- `SubscriptionStore::record_usage(user_id, tokens, provider)`, with the
outcome of its two SQL statements injected.
`updateFails`: the counter `UPDATE` errors; `Err` is returned with nothing
mutated.  `insertFails`: the `UPDATE` landed but the `usage_counters`
`INSERT` errors; `Err` is returned with the subscriptions row mutated, no
usage row appended, and - the statements being non-transactional and the
removal coming last - the cache entry NOT removed.  `ok`: both landed; the
cache entry is removed before `Ok(())`. -/
def record_usage_attempt (s : StoreState) (userId : String) (tokens : Int)
    (provider : String) : SqlOutcome → Except Unit Unit × StoreState
  | SqlOutcome.updateFails => (Except.error (), s)
  | SqlOutcome.insertFails =>
      let db2 := updAt s.db userId
        ((s.db userId).map fun row =>
          { row with
            tokens_used := row.tokens_used + tokens
            requests_used := row.requests_used + 1 })
      (Except.error (), { s with db := db2 })
  | SqlOutcome.ok => (Except.ok (), record_usage s userId tokens provider)

/-- The store operations claim C8 ranges over; a `record` carries the
outcome of its SQL statements. -/
inductive StoreOp where
  | get (userId : String) : StoreOp
  | upsert (userId : String) (tier : Tier) (expiresAt : Option Int)
      (quotas : Option (Int × Int × Int)) : StoreOp
  | record (userId : String) (tokens : Int) (provider : String)
      (outcome : SqlOutcome) : StoreOp

/-- An operation free of `record_usage`'s partial SQL failure (the
`UPDATE`-landed / `INSERT`-failed path). -/
def StoreOp.noPartialFailure : StoreOp → Prop
  | .record _ _ _ outcome => outcome ≠ SqlOutcome.insertFails
  | _ => True

def applyOp (s : StoreState) : StoreOp → StoreState
  | .get u => (get_subscription s u).2
  | .upsert u t e q => (upsert_subscription s u t e q).2
  | .record u k p outcome => (record_usage_attempt s u k p outcome).2

def runOps (s : StoreState) (ops : List StoreOp) : StoreState :=
  ops.foldl applyOp s

/-- The write-through cache invariant: every cached record equals what a
fresh database read (row fetch plus conversion) would produce. -/
def CacheConsistent (s : StoreState) : Prop :=
  ∀ u r, s.cache u = some r → (s.db u).map rowToRecord = some r

theorem cacheConsistent_get (s : StoreState) (u : String)
    (h : CacheConsistent s) : CacheConsistent (get_subscription s u).2 := by
  unfold get_subscription
  cases hc : s.cache u with
  | some r => exact h
  | none =>
    cases hd : s.db u with
    | none => exact h
    | some row =>
      intro v r' hr'
      simp only [updAt] at hr'
      by_cases hv : v = u
      · subst hv
        simp only [if_true] at hr'
        rw [hd]
        simpa using hr'
      · rw [if_neg hv] at hr'
        exact h v r' hr'

theorem cacheConsistent_record (s : StoreState) (u : String) (k : Int)
    (p : String) (h : CacheConsistent s) :
    CacheConsistent (record_usage s u k p) := by
  intro v r' hr'
  simp only [record_usage, updAt] at hr' ⊢
  by_cases hv : v = u
  · subst hv; simp at hr'
  · rw [if_neg hv] at hr'
    rw [if_neg hv]
    exact h v r' hr'

theorem cacheConsistent_upsertWrite (s : StoreState) (u : String) (t : Tier)
    (e : Option Int) (q : Option (Int × Int × Int)) (h : CacheConsistent s) :
    CacheConsistent (upsertWrite s u t e q) := by
  intro v r' hr'
  simp only [upsertWrite, updAt] at hr' ⊢
  by_cases hv : v = u
  · subst hv; simp at hr'
  · rw [if_neg hv] at hr'
    rw [if_neg hv]
    exact h v r' hr'

theorem cacheConsistent_upsert (s : StoreState) (u : String) (t : Tier)
    (e : Option Int) (q : Option (Int × Int × Int)) (h : CacheConsistent s) :
    CacheConsistent (upsert_subscription s u t e q).2 :=
  cacheConsistent_get _ _ (cacheConsistent_upsertWrite s u t e q h)

theorem cacheConsistent_record_attempt (s : StoreState) (u : String)
    (k : Int) (p : String) (outcome : SqlOutcome)
    (hout : outcome ≠ SqlOutcome.insertFails) (h : CacheConsistent s) :
    CacheConsistent (record_usage_attempt s u k p outcome).2 := by
  cases outcome with
  | updateFails => exact h
  | insertFails => exact absurd rfl hout
  | ok => exact cacheConsistent_record s u k p h

theorem cacheConsistent_runOps (s : StoreState) (ops : List StoreOp)
    (hops : ∀ op ∈ ops, op.noPartialFailure)
    (h : CacheConsistent s) : CacheConsistent (runOps s ops) := by
  induction ops generalizing s with
  | nil => exact h
  | cons op rest ih =>
    refine ih _ (fun o ho => hops o (List.mem_cons_of_mem _ ho)) ?_
    have hop := hops op (List.mem_cons_self _ _)
    cases op with
    | get u => exact cacheConsistent_get _ _ h
    | upsert u t e q => exact cacheConsistent_upsert _ _ _ _ _ h
    | record u k p outcome => exact cacheConsistent_record_attempt _ _ _ _ _ hop h


/-! ## Router core (`router.rs`)

The upstream registry is supplied as an explicit environment: `call` is
`registry.call(name, request)` and the three lists are the per-upstream
results of `registry.broadcast(method, json!({}))` as the aggregation loops
iterate them. -/

structure Env where
  call : String → Request → Except String Response
  toolsList : List (String × Except String Response)
  promptsList : List (String × Except String Response)
  resourcesList : List (String × Except String Response)

/-- `split_namespace` = `str::split_once('/')`, at the character level. -/
def splitOnceChars (sep : Char) : List Char → Option (List Char × List Char)
  | [] => none
  | x :: xs =>
      if x = sep then some ([], xs)
      else
        match splitOnceChars sep xs with
        | some (pre, post) => some (x :: pre, post)
        | none => none

def split_namespace (value : String) : Option (String × String) :=
  (splitOnceChars (Char.ofNat 47) value.data).map
    (fun p => (String.mk p.1, String.mk p.2))

/-- `original.split_once('/').map(|(_, tail)| tail).unwrap_or(original)`:
the local name used by the aggregation rewrites. -/
def localName (original : String) : String :=
  match split_namespace original with
  | some (_, tail) => tail
  | none => original

/-- The tools/prompts aggregation rewrite of one item: an object's `name`
is replaced by `"<server>/<local>"`; non-objects pass through unchanged. -/
def renameNamed (server : String) (item : J) : J :=
  match item with
  | .obj fields =>
      let original := ((lookupField fields "name").bind J.asStr).getD ""
      .obj (setField fields "name" (.str (server ++ "/" ++ localName original)))
  | other => other

/-- String-level `encode_resource_uri` as inlined in `aggregate_resources`:
`format!("mcp+router://{}/{}", server, STANDARD.encode(uri))`. -/
def encodeResourceUriStr (server uri : String) : String :=
  "mcp+router://" ++ server ++ "/" ++ String.mk ((b64Encode (strBytes uri)).map Char.ofNat)

/-- The resources aggregation rewrite of one item: an object's string `uri`
is replaced by the router-scheme URI; objects without one and non-objects
pass through unchanged. -/
def renameResource (server : String) (item : J) : J :=
  match item with
  | .obj fields =>
      match (lookupField fields "uri").bind J.asStr with
      | some uri => .obj (setField fields "uri" (.str (encodeResourceUriStr server uri)))
      | none => .obj fields
  | other => other

/-- Extract one upstream's contribution to `tools/list`: the top-level
`tools` array of an object result, each item renamed; anything else
contributes nothing. -/
def extractItems (key : String) (rename : J → J) (resp : Response) : List J :=
  match resp.result with
  | some (.obj fields) =>
      match lookupField fields key with
      | some (.arr items) => items.map rename
      | _ => []
  | _ => []

/-- The `aggregate_tools` loop over the broadcast results. -/
def aggLoop (key : String) (rename : String → J → J) :
    List (String × Except String Response) → List J
  | [] => []
  | (server, Except.ok resp) :: rest =>
      extractItems key (rename server) resp ++ aggLoop key rename rest
  | (_, Except.error _) :: rest => aggLoop key rename rest

def aggregate_tools (results : List (String × Except String Response)) : J :=
  .obj [("tools", .arr (aggLoop "tools" renameNamed results))]

def aggregate_prompts (results : List (String × Except String Response)) : J :=
  .obj [("prompts", .arr (aggLoop "prompts" renameNamed results))]

def aggregate_resources (results : List (String × Except String Response)) : J :=
  .obj [("resources", .arr (aggLoop "resources" renameResource results))]

/-- `str::strip_prefix` at the character level. -/
def dropPrefChars : List Char → List Char → Option (List Char)
  | [], l => some l
  | _ :: _, [] => none
  | p :: ps, x :: xs => if x = p then dropPrefChars ps xs else none

/-- `RouterState::read_resource` (inlined decoding, then a forwarded
`resources/read`).  The Base64 payload's characters are decoded as bytes;
the Base64 alphabet is ASCII, so a non-ASCII character fails exactly as in
Rust. -/
def read_resource (env : Env) (uri : String) : Except String J :=
  match dropPrefChars ("mcp+router://".data) uri.data with
  | none => Except.error "invalid router resource uri"
  | some rest =>
    match splitOnceChars (Char.ofNat 47) rest with
    | none => Except.error "invalid router resource uri"
    | some (serverChars, payloadChars) =>
      match b64Decode (payloadChars.map Char.toNat) with
      | none => Except.error "decode upstream resource handle"
      | some decoded =>
        match utf8Chars decoded with
        | none => Except.error "resource uri not utf8"
        | some originalChars =>
          match env.call (String.mk serverChars)
              (Request.new "resources/read"
                (.obj [("uri", .str (String.mk originalChars))])) with
          | Except.ok resp =>
              match resp.result with
              | some value => Except.ok value
              | none => Except.error "upstream returned empty result"
          | Except.error e => Except.error e

/-- `params.get("usage").and_then(|usage| usage.get("tokens"))
.and_then(Value::as_i64).unwrap_or(0)`. -/
def estimatedTokens (params : J) : Int :=
  (((params.get "usage").bind (fun usage => usage.get "tokens")).bind J.asI64).getD 0

/-- `params.get("name").and_then(Value::as_str).unwrap_or_default()`. -/
def targetName (params : J) : String :=
  ((params.get "name").bind J.asStr).getD ""

/-- The cost recorded after a successful forward:
`response.result...get("usage").get("tokens").as_i64().unwrap_or(estimated)`. -/
def actualTokens (resp : Response) (estimated : Int) : Int :=
  (((resp.result.bind (fun v => v.get "usage")).bind (fun usage => usage.get "tokens")).bind
    J.asI64).getD estimated

/-- `RouterState::enforce_subscription`: reads `params.user_id` only; a
request without it passes with no store access. -/
def enforce_subscription (s : StoreState) (now : Int) (params : J)
    (estimated : Int) : Except EnforcementError (Option String) × StoreState :=
  match (params.get "user_id").bind J.asStr with
  | some user =>
      match get_subscription s user with
      | (some record, s1) =>
          match record.check_quota now estimated with
          | Except.ok _ => (Except.ok (some user), s1)
          | Except.error e => (Except.error e, s1)
      | (none, s1) => (Except.error EnforcementError.noSubscription, s1)
  | none => (Except.ok none, s)

/-- `RouterState::handle_tool_call`.  The returned triple is the response,
the store state, and the `record_usage` invocations made (user, tokens,
provider).  `recordFails` injects a `record_usage` persistence failure,
which the code logs without touching the response.  (The call site passes
`(user, server, tokens)` to `record_usage(user_id, tokens, provider)`; the
evident intended order `(user, tokens, server)` is modelled.) -/
def handle_tool_call (env : Env) (s : StoreState) (now : Int)
    (recordFails : Bool) (request : Request) :
    Response × StoreState × List (String × Int × String) :=
  let target := targetName request.params
  let estimated := estimatedTokens request.params
  match enforce_subscription s now request.params estimated with
  | (Except.error e, s1) =>
      (Response.error' request.id (ErrorObject.custom (-32020) e.message none), s1, [])
  | (Except.ok userId, s1) =>
    match split_namespace target with
    | some (server, name) =>
      let params := request.params.setKey "name" (.str name)
      match env.call server (Request.new "tools/call" params) with
      | Except.ok resp =>
          match userId with
          | some user =>
              let tokens := actualTokens resp estimated
              let s2 := if recordFails then s1 else record_usage s1 user tokens server
              (resp, s2, [(user, tokens, server)])
          | none => (resp, s1, [])
      | Except.error e =>
          (Response.error' request.id
            (ErrorObject.custom (-32001) "upstream error"
              (some (.obj [("error", .str e)]))), s1, [])
    | none =>
        (Response.error' request.id (ErrorObject.invalidParams "tool name must be namespaced"),
         s1, [])

/-- The `initialize` result: merged capabilities plus the subscription tier
presets (`SubscriptionPreset::defaults()` serialised). -/
def initialize_result : J :=
  .obj
    [("capabilities",
      .obj [("tools", .bool true), ("prompts", .bool true), ("resources", .bool true)]),
     ("subscription_tiers",
      .arr
        [.obj [("name", .str "basic"), ("max_tokens", .int 100000),
               ("max_requests", .int 1000), ("max_concurrent", .int 1)],
         .obj [("name", .str "pro"), ("max_tokens", .int 1000000),
               ("max_requests", .int 10000), ("max_concurrent", .int 3)],
         .obj [("name", .str "enterprise"), ("max_tokens", .int 10000000),
               ("max_requests", .int 100000), ("max_concurrent", .int 10)]])]

/-- `RouterState::handle_jsonrpc` (the method dispatcher; metrics elided). -/
def handle_jsonrpc (env : Env) (s : StoreState) (now : Int)
    (recordFails : Bool) (request : Request) :
    Response × StoreState × List (String × Int × String) :=
  match request.method with
  | "initialize" => (Response.result' request.id initialize_result, s, [])
  | "tools/list" => (Response.result' request.id (aggregate_tools env.toolsList), s, [])
  | "prompts/list" => (Response.result' request.id (aggregate_prompts env.promptsList), s, [])
  | "resources/list" =>
      (Response.result' request.id (aggregate_resources env.resourcesList), s, [])
  | "prompts/get" =>
      let name := ((request.params.get "name").bind J.asStr).getD ""
      match split_namespace name with
      | some (server, prompt) =>
          match env.call server (Request.new "prompts/get" (.obj [("name", .str prompt)])) with
          | Except.ok resp => (resp, s, [])
          | Except.error err =>
              (Response.error' request.id
                (ErrorObject.custom (-32011) "upstream prompt fetch failed"
                  (some (.obj [("error", .str err)]))), s, [])
      | none =>
          (Response.error' request.id
            (ErrorObject.invalidParams "prompt name must be namespaced"), s, [])
  | "resources/read" =>
      let uri := ((request.params.get "uri").bind J.asStr).getD ""
      match read_resource env uri with
      | Except.ok value => (Response.result' request.id value, s, [])
      | Except.error err =>
          (Response.error' request.id
            (ErrorObject.custom (-32012) "resource read failed"
              (some (.obj [("error", .str err)]))), s, [])
  | "tools/call" => handle_tool_call env s now recordFails request
  | m =>
      (Response.error' request.id
        (ErrorObject.custom (-32601) ("unknown method: " ++ m) none), s, [])

/-! ## Stdio transport driver (`upstream.rs`)

A child process is its observable behaviour at this call: whether
`try_wait` reports it gone before the write (a poll error respawns the same
way), and what `read_line` yields - `none` models EOF (0 bytes), an
`Except.error` a line `serde_json` rejects, an `Except.ok` a parsed
response.  `supply` is the sequence of children successive spawns produce;
an empty supply is a spawn failure. -/

structure ChildSpec where
  exitedBeforeWrite : Bool
  readLine : Option (Except Unit Response)

structure StdioSt where
  state : Option ChildSpec
  supply : List ChildSpec

/-- The respawn half of `ensure_process`: `*guard = None;` then spawn. -/
def spawnChild (st : StdioSt) : Except String ChildSpec × StdioSt :=
  match st.supply with
  | [] => (Except.error "spawn stdio upstream", { state := none, supply := [] })
  | c :: rest => (Except.ok c, { state := some c, supply := rest })

/-- `StdioUpstream::ensure_process`. -/
def ensure_process (st : StdioSt) : Except String ChildSpec × StdioSt :=
  match st.state with
  | some c =>
      if c.exitedBeforeWrite then spawnChild { st with state := none }
      else (Except.ok c, st)
  | none => spawnChild st

/-- `StdioUpstream::call`: ensure the child, write the line, read one line;
EOF discards the child and errors, a parse failure errors but keeps it. -/
def stdio_call (st : StdioSt) (request : Request) :
    Except String Response × StdioSt :=
  match ensure_process st with
  | (Except.error e, st1) => (Except.error e, st1)
  | (Except.ok c, st1) =>
      match c.readLine with
      | none => (Except.error "upstream closed stream", { st1 with state := none })
      | some (Except.error _) => (Except.error "invalid json from upstream", st1)
      | some (Except.ok resp) => (Except.ok resp, st1)


/-! ## Concrete fixtures for counterexamples and witnesses -/

/-- A store with no rows at all. -/
def emptyStore : StoreState :=
  { db := fun _ => none, cache := fun _ => none, usage := [] }

/-- A fixed successful upstream response. -/
def okResp : Response :=
  { jsonrpc := "2.0", id := RpcId.int 0, result := some (J.obj [("ok", J.bool true)]),
    error := none }

/-- An environment whose every upstream call succeeds with `okResp`. -/
def okEnv : Env :=
  { call := fun _ _ => Except.ok okResp, toolsList := [], promptsList := [],
    resourcesList := [] }

/-- An environment whose upstreams echo the id of the request they are sent
(as a compliant JSON-RPC server does). -/
def echoEnv : Env :=
  { call := fun _ r =>
      Except.ok { jsonrpc := "2.0", id := r.id, result := some (J.obj []), error := none },
    toolsList := [], promptsList := [], resourcesList := [] }

/-- A pro-tier row for user `"u1"` with untouched counters. -/
def rowU1 : DbRow :=
  { user_id := "u1", tier := "pro", expires_at := none, max_tokens := 1000000,
    max_requests := 10000, max_concurrent := 3, tokens_used := 0, requests_used := 0 }

/-- A store holding only `rowU1`, with a cold cache. -/
def storeU1 : StoreState :=
  { db := fun u => if u = "u1" then some rowU1 else none, cache := fun _ => none,
    usage := [] }

/-- A tools/call request from `"u1"` for `"s/t"`. -/
def reqU1 : Request :=
  { jsonrpc := "2.0", id := RpcId.int 1, method := "tools/call",
    params := J.obj [("name", J.str "s/t"), ("user_id", J.str "u1")] }

/-! ## Claim C1 -/

/-- C1 (amended): every subscription-gate failure on `tools/call` is
returned with the single error code `-32020`, the cause being carried in
the message, and the four cause messages are pairwise distinct. -/
theorem tool_call_gate_error_code (env : Env) (s : StoreState) (now : Int)
    (rf : Bool) (request : Request) (e : EnforcementError) (s1 : StoreState)
    (h : enforce_subscription s now request.params (estimatedTokens request.params) =
      (Except.error e, s1)) :
    handle_tool_call env s now rf request =
      (Response.error' request.id (ErrorObject.custom (-32020) e.message none), s1, [])
  ∧ [EnforcementError.noSubscription.message, EnforcementError.expired.message,
     EnforcementError.requestsExceeded.message,
     EnforcementError.tokensExceeded.message].Pairwise (fun a b => a ≠ b) := by
  constructor
  · simp only [handle_tool_call, h]
  · simp only [EnforcementError.message]
    decide

/-- C1 witness: a missing subscription for `"u1"` is rejected with
`-32020` and the message `"no active subscription"`. -/
theorem tool_call_gate_error_code_witness :
    handle_tool_call okEnv emptyStore 0 false reqU1 =
      (Response.error' (RpcId.int 1)
        (ErrorObject.custom (-32020) EnforcementError.noSubscription.message none),
       emptyStore, [])
  ∧ [EnforcementError.noSubscription.message, EnforcementError.expired.message,
     EnforcementError.requestsExceeded.message,
     EnforcementError.tokensExceeded.message].Pairwise (fun a b => a ≠ b) :=
  tool_call_gate_error_code okEnv emptyStore 0 false reqU1
    EnforcementError.noSubscription emptyStore rfl

/-- C1 counterexample: the missing-subscription rejection carries code
`-32020`, not the claimed `-32050`. -/
theorem tool_call_gate_error_code_cex :
    (handle_tool_call okEnv emptyStore 0 false reqU1).1.error =
      some (ErrorObject.custom (-32020) "no active subscription" none)
  ∧ ((-32020 : Int) = -32050 → False) :=
  ⟨rfl, by decide⟩

/-! ## Claim C2 -/

/-- C2 (amended): a `tools/call` whose params carry no string `user_id`
field skips the subscription gate entirely: enforcement passes with no
user and no store access, the store is left untouched, `record_usage` is
never invoked, and a successful upstream call's response is returned -
the keys `user`, `account.user_id` and the fallback user `"anonymous"`
are never consulted. -/
theorem tool_call_no_user_skips_gate (env : Env) (s : StoreState) (now : Int)
    (rf : Bool) (request : Request)
    (h : (request.params.get "user_id").bind J.asStr = none) :
    enforce_subscription s now request.params (estimatedTokens request.params) =
      (Except.ok none, s)
  ∧ (handle_tool_call env s now rf request).2.1 = s
  ∧ (handle_tool_call env s now rf request).2.2 = []
  ∧ (∀ server tool resp,
       split_namespace (targetName request.params) = some (server, tool) →
       env.call server (Request.new "tools/call" (request.params.setKey "name" (J.str tool))) =
         Except.ok resp →
       (handle_tool_call env s now rf request).1 = resp) := by
  have henf : enforce_subscription s now request.params (estimatedTokens request.params) =
      (Except.ok none, s) := by
    simp only [enforce_subscription, h]
  refine ⟨henf, ?_, ?_, ?_⟩
  · simp only [handle_tool_call, henf]
    rcases hs2 : split_namespace (targetName request.params) with _ | ⟨server, tool⟩
    · simp [hs2]
    · rcases hc : env.call server
          (Request.new "tools/call" (request.params.setKey "name" (J.str tool))) with e | resp
      · simp [hs2, hc]
      · simp [hs2, hc]
  · simp only [handle_tool_call, henf]
    rcases hs2 : split_namespace (targetName request.params) with _ | ⟨server, tool⟩
    · simp [hs2]
    · rcases hc : env.call server
          (Request.new "tools/call" (request.params.setKey "name" (J.str tool))) with e | resp
      · simp [hs2, hc]
      · simp [hs2, hc]
  · intro server tool resp hsp hcall
    simp only [handle_tool_call, henf, hsp, hcall]

/-- An unidentified tools/call request for `"s/t"`. -/
def reqAnon : Request :=
  { jsonrpc := "2.0", id := RpcId.int 5, method := "tools/call",
    params := J.obj [("name", J.str "s/t")] }

/-- C2 witness: the gate is skipped for a request with no `user_id`. -/
theorem tool_call_no_user_skips_gate_witness :
    enforce_subscription emptyStore 0 reqAnon.params (estimatedTokens reqAnon.params) =
      (Except.ok none, emptyStore)
  ∧ (handle_tool_call okEnv emptyStore 0 false reqAnon).2.1 = emptyStore
  ∧ (handle_tool_call okEnv emptyStore 0 false reqAnon).2.2 = []
  ∧ (∀ server tool resp,
       split_namespace (targetName reqAnon.params) = some (server, tool) →
       okEnv.call server (Request.new "tools/call" (reqAnon.params.setKey "name" (J.str tool))) =
         Except.ok resp →
       (handle_tool_call okEnv emptyStore 0 false reqAnon).1 = resp) :=
  tool_call_no_user_skips_gate okEnv emptyStore 0 false reqAnon rfl

/-- C2 counterexample: with no user identification and a store holding no
subscription at all (so none for `"anonymous"` either), the call is
forwarded and succeeds instead of being rejected with the
missing-subscription error. -/
theorem tool_call_no_user_skips_gate_cex :
    (handle_tool_call okEnv emptyStore 0 false reqAnon).1 = okResp
  ∧ okResp.error = none
  ∧ (handle_tool_call okEnv emptyStore 0 false reqAnon).2.2 = [] :=
  ⟨rfl, rfl, rfl⟩

/-! ## Claim C3 -/

/-- C3 (amended): on a successful non-streaming forward for an identified
user, the recorded cost is `result.usage.tokens` when present as an
integer, else the estimate `params.usage.tokens` (default 0);
`record_usage(user, cost, server)` is invoked exactly once whatever the
cost's value, and a `record_usage` failure leaves the returned response
(the upstream's, verbatim) unchanged. -/
theorem tool_call_records_usage (env : Env) (s : StoreState) (now : Int)
    (rf : Bool) (request : Request) (u : String) (s1 : StoreState)
    (server tool : String) (resp : Response)
    (henf : enforce_subscription s now request.params (estimatedTokens request.params) =
      (Except.ok (some u), s1))
    (hsp : split_namespace (targetName request.params) = some (server, tool))
    (hcall : env.call server
      (Request.new "tools/call" (request.params.setKey "name" (J.str tool))) =
      Except.ok resp) :
    handle_tool_call env s now rf request =
      (resp,
       (if rf then s1
        else record_usage s1 u (actualTokens resp (estimatedTokens request.params)) server),
       [(u, actualTokens resp (estimatedTokens request.params), server)]) := by
  simp only [handle_tool_call, henf, hsp, hcall]

/-- C3 witness: user `"u1"` calls `"s/t"`; the upstream reports no usage,
so the estimate 0 is recorded, once, and the upstream response is returned
as-is. -/
theorem tool_call_records_usage_witness :
    handle_tool_call okEnv storeU1 0 false reqU1 =
      (okResp,
       record_usage (get_subscription storeU1 "u1").2 "u1"
         (actualTokens okResp (estimatedTokens reqU1.params)) "s",
       [("u1", actualTokens okResp (estimatedTokens reqU1.params), "s")]) := by
  have h := tool_call_records_usage okEnv storeU1 0 false reqU1 "u1"
    (get_subscription storeU1 "u1").2 "s" "t" okResp rfl rfl rfl
  simpa using h

/-- A response whose result carries `usage.total_tokens = 12` (and no
`usage.tokens`). -/
def respTotal : Response :=
  { jsonrpc := "2.0", id := RpcId.int 0,
    result := some (J.obj [("usage", J.obj [("total_tokens", J.int 12)])]),
    error := none }

/-- An environment whose upstream answers with `respTotal`. -/
def envTotal : Env :=
  { call := fun _ _ => Except.ok respTotal, toolsList := [], promptsList := [],
    resourcesList := [] }

/-- A tools/call from `"u1"` carrying `usage.expected_tokens = 5`. -/
def reqExpected : Request :=
  { jsonrpc := "2.0", id := RpcId.int 9, method := "tools/call",
    params := J.obj [("name", J.str "s/t"), ("user_id", J.str "u1"),
      ("usage", J.obj [("expected_tokens", J.int 5)])] }

/-- C3 counterexample: the upstream carries `result.usage.total_tokens = 12`
and the params carry `usage.expected_tokens = 5`, yet the code reads the
`tokens` keys, records cost 0, and invokes `record_usage` although
`0 > 0` is false. -/
theorem tool_call_records_usage_cex :
    (handle_tool_call envTotal storeU1 0 false reqExpected).2.2 = [("u1", 0, "s")]
  ∧ ((respTotal.result.bind (fun v => v.get "usage")).bind
       (fun g => g.get "total_tokens")).bind J.asI64 = some 12
  ∧ ((0 : Int) = 12 → False)
  ∧ ((0 : Int) > 0 → False) :=
  ⟨rfl, rfl, by decide, by decide⟩


/-! ## Claim C4 -/

/-- C4 (amended): the dispatcher echoes the inbound `id` on every response
it builds itself - `initialize`, the three list aggregations,
`resources/read`, unknown methods, and every validation or upstream-error
path of `prompts/get` and `tools/call`.  But a successfully forwarded
`prompts/get` or `tools/call` returns the upstream's response verbatim, so
its `id` is whatever the upstream sent back - and the forwarded request is
sent with `id` 0, not the inbound id. -/
theorem jsonrpc_response_id :
    (∀ env s now rf request, request.method ≠ "prompts/get" →
       request.method ≠ "tools/call" →
       (handle_jsonrpc env s now rf request).1.id = request.id)
  ∧ (∀ method params, (Request.new method params).id = RpcId.int 0)
  ∧ (∀ env s now rf jr rid params server prompt resp,
       split_namespace (((params.get "name").bind J.asStr).getD "") = some (server, prompt) →
       env.call server (Request.new "prompts/get" (J.obj [("name", J.str prompt)])) =
         Except.ok resp →
       (handle_jsonrpc env s now rf
         { jsonrpc := jr, id := rid, method := "prompts/get", params := params }).1 = resp)
  ∧ (∀ env s now rf jr rid params,
       split_namespace (((params.get "name").bind J.asStr).getD "") = none →
       (handle_jsonrpc env s now rf
         { jsonrpc := jr, id := rid, method := "prompts/get", params := params }).1.id = rid)
  ∧ (∀ env s now rf jr rid params server prompt err,
       split_namespace (((params.get "name").bind J.asStr).getD "") = some (server, prompt) →
       env.call server (Request.new "prompts/get" (J.obj [("name", J.str prompt)])) =
         Except.error err →
       (handle_jsonrpc env s now rf
         { jsonrpc := jr, id := rid, method := "prompts/get", params := params }).1.id = rid)
  ∧ (∀ env s now rf jr rid params,
       handle_jsonrpc env s now rf
         { jsonrpc := jr, id := rid, method := "tools/call", params := params } =
       handle_tool_call env s now rf
         { jsonrpc := jr, id := rid, method := "tools/call", params := params })
  ∧ (∀ env s now rf request e s1,
       enforce_subscription s now request.params (estimatedTokens request.params) =
         (Except.error e, s1) →
       (handle_tool_call env s now rf request).1.id = request.id)
  ∧ (∀ env s now rf request u s1,
       enforce_subscription s now request.params (estimatedTokens request.params) =
         (Except.ok u, s1) →
       split_namespace (targetName request.params) = none →
       (handle_tool_call env s now rf request).1.id = request.id)
  ∧ (∀ env s now rf request u s1 server tool err,
       enforce_subscription s now request.params (estimatedTokens request.params) =
         (Except.ok u, s1) →
       split_namespace (targetName request.params) = some (server, tool) →
       env.call server (Request.new "tools/call" (request.params.setKey "name" (J.str tool))) =
         Except.error err →
       (handle_tool_call env s now rf request).1.id = request.id)
  ∧ (∀ env s now rf request u s1 server tool resp,
       enforce_subscription s now request.params (estimatedTokens request.params) =
         (Except.ok u, s1) →
       split_namespace (targetName request.params) = some (server, tool) →
       env.call server (Request.new "tools/call" (request.params.setKey "name" (J.str tool))) =
         Except.ok resp →
       (handle_tool_call env s now rf request).1 = resp) := by
  refine ⟨?_, ?_, ?_, ?_, ?_, ?_, ?_, ?_, ?_, ?_⟩
  · intro env s now rf request h1 h2
    unfold handle_jsonrpc
    split
    all_goals first
      | rfl
      | (dsimp only; split <;> rfl)
      | (rename_i heq; exact absurd heq h1)
      | (rename_i heq; exact absurd heq h2)
  · intro method params
    rfl
  · intro env s now rf jr rid params server prompt resp hsp hcall
    have hred : handle_jsonrpc env s now rf
        { jsonrpc := jr, id := rid, method := "prompts/get", params := params } =
        (match split_namespace (((params.get "name").bind J.asStr).getD "") with
         | some (server, prompt) =>
             match env.call server (Request.new "prompts/get" (J.obj [("name", J.str prompt)])) with
             | Except.ok resp => (resp, s, [])
             | Except.error err =>
                 (Response.error' rid
                   (ErrorObject.custom (-32011) "upstream prompt fetch failed"
                     (some (J.obj [("error", J.str err)]))), s, [])
         | none =>
             (Response.error' rid (ErrorObject.invalidParams "prompt name must be namespaced"),
              s, [])) := rfl
    rw [hred, hsp]
    simp only [hcall]
  · intro env s now rf jr rid params hsp
    have hred : handle_jsonrpc env s now rf
        { jsonrpc := jr, id := rid, method := "prompts/get", params := params } =
        (match split_namespace (((params.get "name").bind J.asStr).getD "") with
         | some (server, prompt) =>
             match env.call server (Request.new "prompts/get" (J.obj [("name", J.str prompt)])) with
             | Except.ok resp => (resp, s, [])
             | Except.error err =>
                 (Response.error' rid
                   (ErrorObject.custom (-32011) "upstream prompt fetch failed"
                     (some (J.obj [("error", J.str err)]))), s, [])
         | none =>
             (Response.error' rid (ErrorObject.invalidParams "prompt name must be namespaced"),
              s, [])) := rfl
    rw [hred, hsp]
    rfl
  · intro env s now rf jr rid params server prompt err hsp hcall
    have hred : handle_jsonrpc env s now rf
        { jsonrpc := jr, id := rid, method := "prompts/get", params := params } =
        (match split_namespace (((params.get "name").bind J.asStr).getD "") with
         | some (server, prompt) =>
             match env.call server (Request.new "prompts/get" (J.obj [("name", J.str prompt)])) with
             | Except.ok resp => (resp, s, [])
             | Except.error err =>
                 (Response.error' rid
                   (ErrorObject.custom (-32011) "upstream prompt fetch failed"
                     (some (J.obj [("error", J.str err)]))), s, [])
         | none =>
             (Response.error' rid (ErrorObject.invalidParams "prompt name must be namespaced"),
              s, [])) := rfl
    rw [hred, hsp]
    simp only [hcall]
    rfl
  · intro env s now rf jr rid params
    rfl
  · intro env s now rf request e s1 henf
    simp only [handle_tool_call, henf]
    rfl
  · intro env s now rf request u s1 henf hsp
    simp only [handle_tool_call, henf, hsp]
    rfl
  · intro env s now rf request u s1 server tool err henf hsp hcall
    simp only [handle_tool_call, henf, hsp, hcall]
    rfl
  · intro env s now rf request u s1 server tool resp henf hsp hcall
    simp only [handle_tool_call, henf, hsp, hcall]
    rcases u with _ | user <;> rfl

/-- A prompts/get request with inbound id 7. -/
def reqPrompt7 : Request :=
  { jsonrpc := "2.0", id := RpcId.int 7, method := "prompts/get",
    params := J.obj [("name", J.str "s/p")] }

/-- C4 counterexample: a `prompts/get` with inbound id 7, forwarded to an
upstream that (like any compliant JSON-RPC server) echoes the id it was
sent, comes back to the client with id 0 - the forwarded request's id -
not 7. -/
theorem jsonrpc_response_id_cex :
    (handle_jsonrpc echoEnv emptyStore 0 false reqPrompt7).1.id = RpcId.int 0
  ∧ reqPrompt7.id = RpcId.int 7
  ∧ (RpcId.int 0 = RpcId.int 7 → False) :=
  ⟨rfl, rfl, by decide⟩


/-! ## Claim C5 -/

/-- C5 (amended): in tools/list and prompts/list aggregation, every object
item's `name` is rewritten to `"<server>/<local>"`, where the local part is
what follows the first `'/'` of the original name when it has one, and the
whole original name otherwise.  A name that already contains `'/'` is NOT
left unchanged: its existing prefix is replaced by the contributing
upstream's name. -/
theorem aggregation_namespacing :
    (∀ server fields n, lookupField fields "name" = some (J.str n) →
       renameNamed server (J.obj fields) =
         J.obj (setField fields "name" (J.str (server ++ "/" ++ localName n))))
  ∧ (∀ n, split_namespace n = none → localName n = n)
  ∧ (∀ n pre post, split_namespace n = some (pre, post) → localName n = post)
  ∧ (∀ server items rid,
       aggregate_tools
         [(server, Except.ok (Response.result' rid (J.obj [("tools", J.arr items)])))] =
         J.obj [("tools", J.arr (items.map (renameNamed server)))])
  ∧ (∀ server items rid,
       aggregate_prompts
         [(server, Except.ok (Response.result' rid (J.obj [("prompts", J.arr items)])))] =
         J.obj [("prompts", J.arr (items.map (renameNamed server)))]) := by
  refine ⟨?_, ?_, ?_, ?_, ?_⟩
  · intro server fields n h
    simp [renameNamed, h, J.asStr]
  · intro n h
    simp [localName, h]
  · intro n pre post h
    simp [localName, h]
  · intro server items rid
    simp [aggregate_tools, aggLoop, extractItems, Response.result', lookupField]
  · intro server items rid
    simp [aggregate_prompts, aggLoop, extractItems, Response.result', lookupField]

/-- C5 counterexample: upstream `"s"` reports a tool named `"a/b"`; the
aggregate renames it to `"s/b"` instead of leaving it unchanged. -/
theorem aggregation_namespacing_cex :
    aggregate_tools
      [("s", Except.ok (Response.result' (RpcId.int 0)
        (J.obj [("tools", J.arr [J.obj [("name", J.str "a/b")]])])))] =
      J.obj [("tools", J.arr [J.obj [("name", J.str "s/b")]])]
  ∧ ("s/b" = "a/b" → False) :=
  ⟨rfl, by decide⟩

/-! ## Claim C6 -/

/-- The aggregation loop as a flat map over the broadcast results: each
successful upstream contributes its extracted items, each failed one
contributes nothing. -/
theorem aggLoop_flatMap (key : String) (rename : String → J → J)
    (results : List (String × Except String Response)) :
    aggLoop key rename results =
      results.flatMap (fun p =>
        match p.2 with
        | Except.ok r => extractItems key (rename p.1) r
        | Except.error _ => []) := by
  induction results with
  | nil => rfl
  | cons p rest ih =>
      rcases p with ⟨server, res⟩
      rcases res with e | r <;> simp [aggLoop, ih]

/-- C6: tools/list, prompts/list and resources/list always return a result
(`error = none`), each upstream whose call succeeded contributes exactly
its extracted items, and a failed upstream contributes nothing without
affecting the others' contributions. -/
theorem aggregation_never_fails :
    (∀ key rename server e rest,
       aggLoop key rename ((server, Except.error e) :: rest) = aggLoop key rename rest)
  ∧ (∀ key rename server resp rest,
       aggLoop key rename ((server, Except.ok resp) :: rest) =
         extractItems key (rename server) resp ++ aggLoop key rename rest)
  ∧ (∀ results, aggregate_tools results =
       J.obj [("tools", J.arr (results.flatMap (fun p =>
         match p.2 with
         | Except.ok r => extractItems "tools" (renameNamed p.1) r
         | Except.error _ => [])))])
  ∧ (∀ results, aggregate_prompts results =
       J.obj [("prompts", J.arr (results.flatMap (fun p =>
         match p.2 with
         | Except.ok r => extractItems "prompts" (renameNamed p.1) r
         | Except.error _ => [])))])
  ∧ (∀ results, aggregate_resources results =
       J.obj [("resources", J.arr (results.flatMap (fun p =>
         match p.2 with
         | Except.ok r => extractItems "resources" (renameResource p.1) r
         | Except.error _ => [])))])
  ∧ (∀ env s now rf jr rid params,
       (handle_jsonrpc env s now rf
         { jsonrpc := jr, id := rid, method := "tools/list", params := params }).1.error = none)
  ∧ (∀ env s now rf jr rid params,
       (handle_jsonrpc env s now rf
         { jsonrpc := jr, id := rid, method := "prompts/list", params := params }).1.error = none)
  ∧ (∀ env s now rf jr rid params,
       (handle_jsonrpc env s now rf
         { jsonrpc := jr, id := rid, method := "resources/list", params := params }).1.error =
         none) := by
  refine ⟨?_, ?_, ?_, ?_, ?_, ?_, ?_, ?_⟩
  · intro key rename server e rest
    rfl
  · intro key rename server resp rest
    rfl
  · intro results
    simp [aggregate_tools, aggLoop_flatMap]
  · intro results
    simp [aggregate_prompts, aggLoop_flatMap]
  · intro results
    simp [aggregate_resources, aggLoop_flatMap]
  · intro env s now rf jr rid params
    rfl
  · intro env s now rf jr rid params
    rfl
  · intro env s now rf jr rid params
    rfl


/-! ## Claim C8 -/

/-- C8 (amended): after any sequence of `get_subscription`,
`upsert_subscription` and `record_usage` operations from a cold cache in
which no `record_usage` suffers its partial SQL failure, every entry
present in the cache equals the record a fresh database read would
produce; a fully successful `record_usage` returns with the user's entry
removed, a failed counter `UPDATE` mutates nothing, and
`upsert_subscription` removes the entry (its write half ends with the
entry gone) before re-reading through `get_subscription`.  But
`record_usage` is not transactional: when the `usage_counters` `INSERT`
fails after the counter `UPDATE` landed, it returns `Err` with the row
mutated and the cache entry still present. -/
theorem cache_write_through :
    (∀ db0 usage0 ops, (∀ op ∈ ops, op.noPartialFailure) →
       CacheConsistent (runOps { db := db0, cache := fun _ => none, usage := usage0 } ops))
  ∧ (∀ s u k p, record_usage_attempt s u k p SqlOutcome.ok =
       (Except.ok (), record_usage s u k p))
  ∧ (∀ s u k p, (record_usage s u k p).cache u = none)
  ∧ (∀ s u k p, record_usage_attempt s u k p SqlOutcome.updateFails = (Except.error (), s))
  ∧ (∀ s u k p, (record_usage_attempt s u k p SqlOutcome.insertFails).1 = Except.error ()
       ∧ (record_usage_attempt s u k p SqlOutcome.insertFails).2.cache = s.cache)
  ∧ (∀ s u t e q, (upsertWrite s u t e q).cache u = none)
  ∧ (∀ s u t e q, upsert_subscription s u t e q =
       get_subscription (upsertWrite s u t e q) u) := by
  refine ⟨?_, ?_, ?_, ?_, ?_, ?_, ?_⟩
  · intro db0 usage0 ops hops
    exact cacheConsistent_runOps _ _ hops (fun u r hr => Option.noConfusion hr)
  · intro s u k p
    rfl
  · intro s u k p
    simp [record_usage, updAt]
  · intro s u k p
    rfl
  · intro s u k p
    exact ⟨rfl, rfl⟩
  · intro s u t e q
    simp [upsertWrite, updAt]
  · intro s u t e q
    rfl

/-- The two-operation run that breaks the cache invariant: a read
populates the cache for `"u1"`, then a `record_usage` whose `INSERT`
fails after its `UPDATE` landed leaves the mutated row behind a stale
cache entry. -/
def staleRun : StoreState :=
  runOps storeU1 [StoreOp.get "u1", StoreOp.record "u1" 5 "s" SqlOutcome.insertFails]

/-- C8 counterexample: starting from a cold cache over `rowU1`, a
`get_subscription` followed by a partially failing `record_usage` (counter
`UPDATE` landed, usage `INSERT` failed) returns `Err` without removing the
cache entry: the entry still holds the pre-update record, a fresh database
read yields the updated one, and the write-through invariant is violated. -/
theorem cache_write_through_cex :
    (record_usage_attempt (runOps storeU1 [StoreOp.get "u1"]) "u1" 5 "s"
      SqlOutcome.insertFails).1 = Except.error ()
  ∧ staleRun.cache "u1" = some (rowToRecord rowU1)
  ∧ ((staleRun.db "u1").map rowToRecord = some (rowToRecord rowU1) → False)
  ∧ ¬ CacheConsistent staleRun :=
  ⟨rfl, rfl, by decide,
   fun h => absurd (h "u1" (rowToRecord rowU1) rfl) (by decide)⟩

/-! ## Claim C9 -/

/-- C9 (amended): when the stdio child has exited before the request is
written, the driver discards it and respawns immediately within the same
call, which then proceeds against the fresh child (it is not an error for
the current call); when reading the response line yields zero bytes, the
driver discards the child and returns an error for the current call, and
the next call respawns (a call with no live child spawns the next
available one). -/
theorem stdio_lifecycle :
    (∀ st c req, st.state = some c → c.exitedBeforeWrite = true →
       stdio_call st req = stdio_call { state := none, supply := st.supply } req)
  ∧ (∀ st st1 c req, ensure_process st = (Except.ok c, st1) → c.readLine = none →
       stdio_call st req = (Except.error "upstream closed stream", { st1 with state := none }))
  ∧ (∀ c rest, ensure_process { state := none, supply := c :: rest } =
       (Except.ok c, { state := some c, supply := rest })) := by
  refine ⟨?_, ?_, ?_⟩
  · intro st c req hst hex
    rcases st with ⟨state, supply⟩
    simp only at hst
    subst hst
    simp [stdio_call, ensure_process, hex]
  · intro st st1 c req hens hread
    simp [stdio_call, hens, hread]
  · intro c rest
    rfl

/-- A child that has exited before the write, yet would answer if read. -/
def exitedChild : ChildSpec := { exitedBeforeWrite := true, readLine := some (Except.ok okResp) }

/-- A healthy child answering `okResp`. -/
def freshChild : ChildSpec := { exitedBeforeWrite := false, readLine := some (Except.ok okResp) }

/-- C9 counterexample: with the current child exited before the write and a
healthy respawn available, the call succeeds immediately (respawn happens
within the same call), instead of returning an error and deferring the
respawn to the next call as claimed. -/
theorem stdio_lifecycle_cex :
    (stdio_call { state := some exitedChild, supply := [freshChild] }
      (Request.new "ping" J.null)).1 = Except.ok okResp
  ∧ (stdio_call { state := some exitedChild, supply := [freshChild] }
      (Request.new "ping" J.null)).2.state = some freshChild :=
  ⟨rfl, rfl⟩

/-! ## Claim C10 -/

/-- C10: `Tier::from_str` is total - `"pro"` and `"enterprise"` map to
their tiers and every other string to `Basic` - so `get_subscription`
never errors because of an unrecognized stored tier: a cache-miss read of
any row yields the record whose tier is the (total) parse of the stored
text. -/
theorem tier_parse_total :
    (∀ v, Tier.fromStr v =
       if v = "pro" then Tier.pro
       else if v = "enterprise" then Tier.enterprise else Tier.basic)
  ∧ Tier.fromStr "pro" = Tier.pro
  ∧ Tier.fromStr "enterprise" = Tier.enterprise
  ∧ (∀ v, v ≠ "pro" → v ≠ "enterprise" → Tier.fromStr v = Tier.basic)
  ∧ (∀ s u row, s.cache u = none → s.db u = some row →
       (get_subscription s u).1 = some (rowToRecord row)
       ∧ (rowToRecord row).tier = Tier.fromStr row.tier) := by
  refine ⟨?_, rfl, rfl, ?_, ?_⟩
  · intro v
    unfold Tier.fromStr
    split <;> simp_all
  · intro v h1 h2
    unfold Tier.fromStr
    split <;> simp_all
  · intro s u row hc hd
    constructor
    · simp [get_subscription, hc, hd]
    · rfl

end McpRouter
